import Mathlib

/-!
Shallow embedding of the mmyron-ssh repository (a bubbletea TUI served over SSH).
The repository holds two variants of the program inside main.go: the first
(no posts list, referenced here as namespace P1) and the second (with a posts
list, namespace P2), plus a frontmatter splitter (namespace FM).
Go ints are modelled as Int, Go strings as String, byte-level string helpers
are implemented over List Char with Go semantics. External library calls
(lipgloss layout, glamour markdown rendering) produce strings that no claim
inspects; glamour rendering is threaded as an explicit function parameter
`render : Int -> String -> String` (word-wrap width, markdown source).
-/

namespace Mmyron

/-- Go strings.Split with a single-character separator: splits at every
occurrence, keeps empty fields, and returns one (empty) field for the empty
input. -/
def splitOnChar (c : Char) : List Char → List (List Char)
  | [] => [[]]
  | x :: xs =>
    if x = c then [] :: splitOnChar c xs
    else
      match splitOnChar c xs with
      | ys :: yss => (x :: ys) :: yss
      | [] => [[x]]

/-- Go strings.Split(s, newline). -/
def splitLines (s : String) : List String :=
  (splitOnChar '\n' s.data).map String.mk

/-- Go strings.Join(xs, sep). -/
def joinWith (sep : String) : List String → String
  | [] => ""
  | [x] => x
  | x :: xs => x ++ sep ++ joinWith sep xs

/-- Go strings.HasPrefix(s, pre). -/
def goStartsWith (s pre : String) : Bool :=
  List.isPrefixOf pre.data s.data

/-- Go strings.TrimSpace on the character list: drop leading and trailing
whitespace. -/
def trimSpace (cs : List Char) : List Char :=
  ((cs.dropWhile Char.isWhitespace).reverse.dropWhile Char.isWhitespace).reverse

/-- Go strings.TrimSpace. -/
def goTrimSpace (s : String) : String := String.mk (trimSpace s.data)

/-- Go strings.Count(s, newline): the separator is a single character, so this
is the number of newline characters. -/
def countNl (s : String) : Nat := s.data.count '\n'

/-- Go strings.TrimPrefix(s, newline): removes one leading newline if present. -/
def dropNlAtStart (s : String) : String :=
  match s.data with
  | '\n' :: rest => String.mk rest
  | _ => s

/-- Go strings.TrimSuffix(s, newline): removes one trailing newline if present. -/
def dropNlAtEnd (s : String) : String :=
  if s.data.getLast? = some '\n' then String.mk s.data.dropLast else s

/-- The trim applied to each fresh project render (main.go lines 206-209):
TrimSuffix(TrimPrefix(x, newline), newline). -/
def dropNlBoth (s : String) : String := dropNlAtEnd (dropNlAtStart s)

/-- lipgloss.JoinVertical(Left, ...): stacks blocks on separate lines. The
left-alignment padding that lipgloss adds is omitted; no claim inspects the
joined text. -/
def joinVertical (xs : List String) : String := joinWith "\n" xs

/-- lipgloss.JoinHorizontal(Left, ...): merges blocks side by side. The
character-grid merging is opaque to every claim and is modelled as plain
concatenation. -/
def joinHorizontal (xs : List String) : String := joinWith "" xs

/-- A lipgloss gap block of the given width and height (lines 222, 225): its
rendered text is opaque to every claim. -/
def gapBlock (w : Int) (h : Nat) : String := ""

/-- lipgloss.Place(w, h, ..., s): centers s in a w-by-h box. The box dressing
is opaque to every claim and is modelled as the content itself. -/
def place (w h : Int) (s : String) : String := s

/-- bubbles viewport.Model: the fields the program reads or writes. -/
structure Viewport where
  width : Int
  height : Int
  yOffset : Int
  yPosition : Int
  content : String
  highPerf : Bool
deriving DecidableEq

/-- The tea.Cmd values the program produces: nil, tea.Quit, or
viewport.Sync(vp). -/
inductive TeaCmd where
  | nil
  | quit
  | sync (vp : Viewport)
deriving DecidableEq

namespace P1

/-- main.go line 40. -/
def maxWidth : Int := 80

/-- main.go line 41. -/
def useHighPerformanceRenderer : Bool := true

/-- main.go line 43. -/
def headerHeight : Int := 4

/-- main.go line 44. -/
def footerHeight : Int := 4

/-- main.go lines 46-50. -/
def top : String := "# hey, i\x27m max\n\nI study computer science and philosophy at Suffolk University, and design and develop web tools in my spare time. I can\x27t comment on their usefulness, but they\x27re hopefully a little cool.\n\n## Recent Projects"

/-- main.go lines 52-54. -/
def prog1 : String := "### Hypersearch\n\nHypersearch is a Chromium extension that provides power-user search tools. Slim down and streamline Google search result pages by filtering out spam results and blocking unnecessary info cards."

/-- main.go lines 56-58. -/
def prog2 : String := "### asciish\n\nAsciish is a Vite/Rollup extension that provides build-time Unicode injection using shortcodes. This helps to keep source code UTF-8 compliant while allowing for the use of complex Unicode characters on a webpage."

/-- main.go lines 60-62. -/
def prog3 : String := "### escape-time\n\nEscape time is a small WebGL fractal explorer thrown together over a weekend for a Suffolk University Math Society presentation. It supports a few different fractals and was mostly a WebGL learning experience."

/-- main.go lines 64-66. -/
def prog4 : String := "### Clippy\n\nClippy.mov is a web-based video editor built using FFmpeg.wasm. I stopped developing it after the new school semester started, and recently came back to it. It\x27s in active development."

/-- main.go lines 68-71. -/
def bot : String := "## Want to get in touch?\n\nThanks, that\x27s awesome! :D\n"

/-- main.go lines 28-35: the model of the first program. -/
structure Model1 where
  loaded : Bool
  viewport : Mmyron.Viewport
  fitWidth : Int
  cmdWidth : Int
  cmdHeight : Int
deriving DecidableEq

/-- The package-level mutable state the first program renders through
(main.go lines 74-84): the current glamour renderer (identified by its
word-wrap width), the four cached project renders, and the flex layout. -/
structure Globals1 where
  glamourWrap : Int
  projRender1 : String
  projRender2 : String
  projRender3 : String
  projRender4 : String
  flex : String
deriving DecidableEq

/-- main.go line 145: the fitted width computed at session initialization. -/
def teaFitWidth (physWidth : Int) : Int := min physWidth maxWidth

/-- main.go lines 274-277: the fitted width computed on a resize. -/
def updateFitWidth (w : Int) : Int :=
  let f := min w maxWidth
  if f < 80 then f - 4 else f

/-- Fitted width as claim C4 words it, for comparison with the source:
min(w, 80), with a fixed margin of 4 subtracted whenever min(w, 80) < 80. -/
def claimFitWidth (w : Int) : Int :=
  if min w maxWidth < maxWidth then min w maxWidth - 4 else min w maxWidth

/-- main.go lines 141-158: session initialization. The terminal size probe
result is passed in; cmdWidth and cmdHeight keep their Go zero values. -/
def teaHandler (physWidth physHeight : Int) : Model1 :=
  { loaded := false
    viewport :=
      { width := physWidth
        height := physHeight - headerHeight - footerHeight
        yOffset := 0
        yPosition := 0
        content := ""
        highPerf := useHighPerformanceRenderer }
    fitWidth := teaFitWidth physWidth
    cmdWidth := 0
    cmdHeight := 0 }

/-- The column mode chosen by main.go line 211: single below the 80-column
maximum, dual at it. -/
inductive ColumnMode where
  | single
  | dual
deriving DecidableEq

/-- main.go line 211: the branch condition of the two-column layout. -/
def columnMode (fitWidth : Int) : ColumnMode :=
  if fitWidth < 80 then ColumnMode.single else ColumnMode.dual

/-- The values produced by the dual-column branch. -/
structure DualLayout where
  flex : String
  proj3 : String
  proj4 : String
  rowAHeight : Nat
  rowBHeight : Nat
deriving DecidableEq

/-- main.go lines 216-230: the dual-column branch, operating on the four
freshly trimmed project renders. Line 218 of the source reads projRender2
(not projRender3) when recomputing projRender3. -/
def dualBranch (projRender1 projRender2 projRender3 projRender4 : String) : DualLayout :=
  let projRender3 := Mmyron.dropNlAtEnd projRender2
  let projRender4 := Mmyron.dropNlAtEnd projRender4
  let rowAHeight := max (Mmyron.countNl projRender1) (Mmyron.countNl projRender2)
  let rowBHeight := max (Mmyron.countNl projRender3) (Mmyron.countNl projRender4)
  let rowA := Mmyron.joinHorizontal [projRender1, Mmyron.gapBlock 4 rowAHeight, projRender2]
  let rowB := Mmyron.joinHorizontal [projRender3, Mmyron.gapBlock 4 rowBHeight, projRender4]
  { flex := Mmyron.joinVertical [rowA, rowB]
    proj3 := projRender3
    proj4 := projRender4
    rowAHeight := rowAHeight
    rowBHeight := rowBHeight }

/-- main.go lines 176-231: rebuild the glamour renderer, re-render the four
project blocks, and rebuild the flex layout. Renderer construction with these
fixed options cannot fail and is modelled as succeeding. The project renders
use the half-width renderer when fitWidth exceeds 76 (lines 189-199). -/
def rerenderGlobals (render : Int → String → String) (g : Globals1) (fitWidth : Int) :
    Globals1 :=
  let g := { g with glamourWrap := fitWidth }
  let projWrap := if fitWidth > 76 then fitWidth / 2 - 4 else fitWidth
  let p1 := Mmyron.dropNlBoth (render projWrap prog1)
  let p2 := Mmyron.dropNlBoth (render projWrap prog2)
  let p3 := Mmyron.dropNlBoth (render projWrap prog3)
  let p4 := Mmyron.dropNlBoth (render projWrap prog4)
  match columnMode fitWidth with
  | ColumnMode.single =>
    let p4 := Mmyron.dropNlAtEnd p4
    { g with projRender1 := p1, projRender2 := p2, projRender3 := p3, projRender4 := p4
             flex := Mmyron.joinVertical [p1, p2, p3, p4] }
  | ColumnMode.dual =>
    let d := dualBranch p1 p2 p3 p4
    { g with projRender1 := p1, projRender2 := p2, projRender3 := d.proj3
             projRender4 := d.proj4, flex := d.flex }

/-- main.go lines 240-242: the contact rows; lipgloss styling and placement
are modelled as plain text. -/
def contactA : String := "email" ++ "•" ++ " " ++ "max@mmyron.com" ++ "\n"

/-- main.go line 241. -/
def contactB : String := "twitter" ++ "•" ++ " " ++ "@mmorenthal" ++ "\n"

/-- main.go line 242. -/
def contactC : String := "github" ++ "•" ++ " " ++ "maxmmyron" ++ "\n"

/-- Result of RerenderContent: the updated package globals, the updated model,
the returned tea.Cmd, and the list of markdown sources passed to a glamour
Render call during this invocation, in order. -/
structure RR1 where
  globals : Globals1
  model : Model1
  cmd : Mmyron.TeaCmd
  renderCalls : List String
deriving DecidableEq

/-- main.go lines 165-257: RerenderContent of the first program. The
needsNewFile parameter is unused by the source body and kept for fidelity. -/
def RerenderContent (render : Int → String → String) (g : Globals1) (m : Model1)
    (needsNewFile needsNewTerm : Bool) : RR1 :=
  let m := { m with viewport.height := m.cmdHeight - headerHeight - footerHeight }
  let g := if needsNewTerm then rerenderGlobals render g m.fitWidth else g
  let projCalls := if needsNewTerm then [prog1, prog2, prog3, prog4] else []
  let topRender := Mmyron.dropNlAtStart (render g.glamourWrap top)
  let botRender := Mmyron.dropNlAtEnd (render g.glamourWrap bot)
  let cmb := Mmyron.joinVertical [topRender, g.flex, botRender, contactA, contactB, contactC]
  if useHighPerformanceRenderer then
    let vp := { m.viewport with content := Mmyron.place m.cmdWidth m.viewport.height cmb }
    { globals := g, model := { m with viewport := vp }, cmd := Mmyron.TeaCmd.sync vp
      renderCalls := projCalls ++ [top, bot] }
  else
    { globals := g, model := { m with viewport.content := cmb }, cmd := Mmyron.TeaCmd.nil
      renderCalls := projCalls ++ [top, bot] }

/-- Result of one WindowSizeMsg step: globals, model, the batched commands,
and every markdown source passed to glamour Render during the step. -/
structure Step1 where
  globals : Globals1
  model : Model1
  cmds : List Mmyron.TeaCmd
  renderCalls : List String
deriving DecidableEq

/-- main.go lines 271-309: the WindowSizeMsg case of Update in the first
program. The package variable lastFitWidth is written then read within the
same handler and is modelled as a local. -/
def UpdateWindowSize (render : Int → String → String) (g : Globals1) (m : Model1)
    (w h : Int) : Step1 :=
  let lastFitWidth := m.fitWidth
  let m := { m with fitWidth := updateFitWidth w }
  let m := { m with viewport.height := h - headerHeight - footerHeight }
  let m := { m with cmdWidth := w, cmdHeight := h }
  let s1 : Step1 :=
    if m.loaded = false then
      let m := { m with viewport.highPerf := useHighPerformanceRenderer, loaded := true }
      let r := RerenderContent render g m true true
      { globals := r.globals, model := r.model, cmds := [r.cmd], renderCalls := r.renderCalls }
    else
      { globals := g, model := m, cmds := [], renderCalls := [] }
  let r :=
    if lastFitWidth ≠ s1.model.fitWidth then
      RerenderContent render s1.globals s1.model false true
    else
      RerenderContent render s1.globals s1.model false false
  let s2 : Step1 :=
    { globals := r.globals, model := r.model, cmds := s1.cmds ++ [r.cmd]
      renderCalls := s1.renderCalls ++ r.renderCalls }
  if useHighPerformanceRenderer then
    let mF := { s2.model with viewport.yPosition := headerHeight + 1 }
    { globals := s2.globals, model := mF
      cmds := s2.cmds ++ [Mmyron.TeaCmd.sync mF.viewport], renderCalls := s2.renderCalls }
  else s2

end P1

namespace P2

/-- main.go line 437 (second program). -/
def maxWidth : Int := 80

/-- main.go line 438. -/
def useHighPerformanceRenderer : Bool := true

/-- main.go line 440. -/
def headerHeight : Int := 4

/-- main.go line 441. -/
def footerHeight : Int := 4

/-- main.go lines 423-426: a post with its metadata and markdown body. -/
structure Post where
  title : String
  path : String
  desc : String
  md : String
deriving DecidableEq

/-- The bubbles list.Model fields the program uses: the items, the selection
index, and the dimensions set by SetWidth and SetHeight. -/
structure PostsList where
  items : List Post
  index : Nat
  width : Int
  height : Int
deriving DecidableEq

/-- list.Model.SelectedItem followed by the post type assertion (line 723).
An empty list would make the Go assertion panic; the claims never concern an
empty list, so the default item is immaterial. -/
def selectedItem (l : PostsList) : Post :=
  l.items.getD l.index { title := "", path := "", desc := "", md := "" }

/-- main.go lines 411-421: the model of the second program. -/
structure Model2 where
  loaded : Bool
  viewport : Mmyron.Viewport
  currentPath : String
  content : String
  fitWidth : Int
  posts : PostsList
  cmdWidth : Int
  cmdHeight : Int
deriving DecidableEq

/-- main.go line 661: the fitted width computed on a resize in the second
program (no margin subtraction). -/
def updateFitWidth (w : Int) : Int := min w maxWidth

/-- Result of Rerender: the updated model and the returned tea.Cmd. -/
structure RR2 where
  model : Model2
  cmd : Mmyron.TeaCmd
deriving DecidableEq

/-- main.go lines 576-644: Rerender of the second program. The content store
is threaded as fs : path to optional file body (os.ReadFile, with none for a
read error such as a missing file). Renderer construction with the fixed
options (lines 598-608) cannot fail and is modelled as succeeding, as is the
glamour Render call on already-validated content (line 626). -/
def Rerender (render : Int → String → String) (fs : String → Option String)
    (m : Model2) (needsNewFile : Bool) : RR2 :=
  if m.currentPath = "/posts" then
    let vp := { m.viewport with yOffset := 0, width := 0, height := 0, content := "" }
    let m := { m with viewport := vp }
    if useHighPerformanceRenderer then
      { model := m, cmd := Mmyron.TeaCmd.sync vp }
    else
      { model := m, cmd := Mmyron.TeaCmd.nil }
  else
    let m := { m with viewport.height := m.cmdHeight - headerHeight - footerHeight }
    let loadStep : Option Model2 :=
      if needsNewFile then
        match fs ("fs" ++ m.currentPath ++ ".md") with
        | none => none
        | some file => some { m with content := file, viewport.yOffset := 0 }
      else some m
    match loadStep with
    | none => { model := m, cmd := Mmyron.TeaCmd.quit }
    | some m =>
      let rendered := render m.fitWidth m.content
      if useHighPerformanceRenderer then
        let vp := { m.viewport with
          content := Mmyron.place m.cmdWidth m.viewport.height rendered }
        { model := { m with viewport := vp }, cmd := Mmyron.TeaCmd.sync vp }
      else
        { model := { m with viewport.content := rendered }, cmd := Mmyron.TeaCmd.nil }

/-- main.go lines 697-747: the KeyMsg case of Update in the second program.
Note that a non-nil cmd produced inside the switch is appended twice: once
inside the case (for example line 708) and again after the switch at line
739, because the same variable is still set. The default case forwards the
message to the viewport or the list widget, which does not change any state
a claim mentions, so it is modelled as leaving the model unchanged. -/
def UpdateKey (render : Int → String → String) (fs : String → Option String)
    (m : Model2) (key : String) : Model2 × List Mmyron.TeaCmd :=
  if key = "q" then (m, [Mmyron.TeaCmd.quit])
  else if key = "p" then
    if m.currentPath = "/root" then
      let m := { m with currentPath := "/posts" }
      let r := Rerender render fs m false
      let cmds := if r.cmd = Mmyron.TeaCmd.nil then ([] : List Mmyron.TeaCmd) else [r.cmd]
      let cmds := if r.cmd = Mmyron.TeaCmd.nil then cmds else cmds ++ [r.cmd]
      (r.model, cmds)
    else (m, [])
  else if key = "b" then
    if m.currentPath ≠ "/root" then
      let m := { m with currentPath := "/root" }
      let r := Rerender render fs m true
      let cmds := if r.cmd = Mmyron.TeaCmd.nil then ([] : List Mmyron.TeaCmd) else [r.cmd]
      let cmds := if r.cmd = Mmyron.TeaCmd.nil then cmds else cmds ++ [r.cmd]
      (r.model, cmds)
    else (m, [])
  else if key = "enter" then
    if m.currentPath = "/posts" then
      let newPath := (selectedItem m.posts).path
      let m := { m with currentPath := newPath }
      let r := Rerender render fs m true
      let cmds := if r.cmd = Mmyron.TeaCmd.nil then ([] : List Mmyron.TeaCmd) else [r.cmd]
      let cmds := if r.cmd = Mmyron.TeaCmd.nil then cmds else cmds ++ [r.cmd]
      (r.model, cmds)
    else (m, [])
  else (m, [])

/-- main.go line 772 (second program HeaderView). -/
def altLinkWidth : Int := 11

/-- main.go line 773. -/
def linkPadding : Int := 2

/-- Lipgloss color styling wraps text in terminal escape sequences, which can
only lengthen the byte string; it is modelled as the identity, which makes
the truncation bound analysis below conservative. -/
def ApplyNormal (s : String) : String := s

/-- main.go lines 777-784: the header path text before width fitting. -/
def headerPathText (currentPath : String) : String :=
  if currentPath ≠ "/root" then ApplyNormal ("mmyron.com" ++ currentPath)
  else ApplyNormal ("mmyron.com" ++ "/")

/-- main.go lines 786-793: the width budget and ellipsis truncation of the
header path. Go len() is the byte length; every string involved is ASCII so
the character count used here coincides with it. The Go slice
content[:mainContentWidth-4] panics when the bound is negative or exceeds
len(content); that out-of-range access is modelled as none. -/
def headerTruncate (fitWidth : Int) (content : String) : Option String :=
  let mainWidth := fitWidth - altLinkWidth
  let mainContentWidth := mainWidth - 2 - 2 * linkPadding
  if (content.data.length : Int) > mainContentWidth then
    if 0 ≤ mainContentWidth - 4 ∧ mainContentWidth - 4 ≤ (content.data.length : Int) then
      some (String.mk (content.data.take (mainContentWidth - 4).toNat) ++ "...")
    else none
  else some content

end P2

namespace FM

/-- Outcome of the frontmatter scan loop: the closing delimiter was found and
the body slice was in bounds, the body slice index i+2 exceeded the line
count (a Go slice-bounds panic), or the loop finished without a closing
delimiter. -/
inductive ScanOut where
  | closed (body : String) (fm : List (String × String))
  | outOfRange
  | noClose (fm : List (String × String))
deriving DecidableEq

/-- The loop of SplitFrontmatterMarkdown (part_000 lines 17-33). all is the
complete line array, i the index of the head of the remaining lines. A line
beginning with three dashes yields the body strings.Join(lines[i+2:], nl),
with ScanOut.outOfRange marking the Go panic when i+2 exceeds the line
count. A line containing a colon contributes the pair
(TrimSpace(parts[0]), TrimSpace(parts[1])) where parts splits the line at
every colon. The Go map assignment fm[key] = value is modelled as an
association-list append; the claims never involve a repeated key. -/
def fmScanAux (all : List String) : Nat → List (String × String) → List String → ScanOut
  | _, fm, [] => ScanOut.noClose fm
  | i, fm, line :: rest =>
    if i = 0 then fmScanAux all (i + 1) fm rest
    else if Mmyron.goStartsWith line "---" then
      if i + 2 ≤ all.length then
        ScanOut.closed (Mmyron.joinWith "\n" (all.drop (i + 2))) fm
      else ScanOut.outOfRange
    else if line.data.contains ':' then
      let parts := Mmyron.splitOnChar ':' line.data
      fmScanAux all (i + 1)
        (fm ++ [(String.mk (Mmyron.trimSpace (parts.headD [])),
                 String.mk (Mmyron.trimSpace (parts.getD 1 [])))]) rest
    else fmScanAux all (i + 1) fm rest

/-- part_000 lines 11-39: SplitFrontmatterMarkdown. Returns none exactly when
the Go code would panic with a slice bound out of range. -/
def SplitFrontmatterMarkdown (content : String) :
    Option (String × List (String × String)) :=
  let lines := Mmyron.splitLines content
  if Mmyron.goStartsWith (lines.headD "") "---" then
    match fmScanAux lines 0 [] lines with
    | ScanOut.closed body fm => some (body, fm)
    | ScanOut.outOfRange => none
    | ScanOut.noClose fm => some (content, fm)
  else some (content, [])

/-- Rejoin character-list fields with a separator character, used to express
what the remainder of a line after its first colon is. -/
def joinCharsWith (c : Char) : List (List Char) → List Char
  | [] => []
  | [x] => x
  | x :: xs => x ++ c :: joinCharsWith c xs

/-- The key-value split as claim C5 words it: split the line on the FIRST
colon only, key and the ENTIRE remainder both whitespace-trimmed. Stated for
comparison with the parts[1] the source keeps. -/
def claimSplitKvValue (line : String) : String :=
  match Mmyron.splitOnChar ':' line.data with
  | [] => ""
  | _ :: rest => String.mk (Mmyron.trimSpace (joinCharsWith ':' rest))

end FM

/-- An identity markdown renderer, used as a concrete glamour stand-in by the
witnesses. -/
def rid : Int → String → String := fun _ s => s

/-- A content store with no files, used by the witnesses. -/
def fsEmpty : String → Option String := fun _ => none

/-- The Go zero value of the viewport, with high-performance rendering on. -/
def vp0 : Viewport :=
  { width := 0, height := 0, yOffset := 0, yPosition := 0, content := "", highPerf := true }

/-- The Go zero value of the first program package globals. -/
def g0 : P1.Globals1 :=
  { glamourWrap := 0, projRender1 := "", projRender2 := "", projRender3 := ""
    projRender4 := "", flex := "" }

/-- A loaded first-program session at full width in a 100 by 40 terminal. -/
def m0 : P1.Model1 :=
  { loaded := true, viewport := vp0, fitWidth := 80, cmdWidth := 100, cmdHeight := 40 }

/-- A second-program session sitting on the posts list, whose selected post
points at a path with no backing file. -/
def m1 : P2.Model2 :=
  { loaded := true, viewport := vp0, currentPath := "/posts", content := ""
    fitWidth := 80
    posts := { items := [{ title := "Ghost", path := "/posts/ghost", desc := "", md := "" }]
               index := 0, width := 80, height := 32 }
    cmdWidth := 100, cmdHeight := 40 }

/-- A second-program session at the root page. -/
def m2 : P2.Model2 :=
  { loaded := true, viewport := vp0, currentPath := "/root", content := "# root"
    fitWidth := 80
    posts := { items := [], index := 0, width := 80, height := 32 }
    cmdWidth := 100, cmdHeight := 40 }

/-! Helper lemmas shared by several developments. -/

/-- String concatenation concatenates the underlying character lists. -/
theorem string_data_append (a b : String) : (a ++ b).data = a.data ++ b.data := rfl

/-- Splitting at a separator that heads the input yields a leading empty
field. -/
theorem splitOnChar_sep_head (c : Char) (ys : List Char) :
    splitOnChar c (c :: ys) = [] :: splitOnChar c ys := by
  simp [splitOnChar]

/-- Splitting a separator-free list yields the single field. -/
theorem splitOnChar_no_sep (c : Char) (xs : List Char) (h : c ∉ xs) :
    splitOnChar c xs = [xs] := by
  induction xs with
  | nil => simp [splitOnChar]
  | cons x xs ih =>
    have hx : ¬ x = c := by
      intro hxc
      exact h (hxc ▸ List.mem_cons_self x xs)
    have h2 : c ∉ xs := fun hm => h (List.mem_cons_of_mem _ hm)
    simp [splitOnChar, hx, ih h2]

/-- Splitting past a separator-free chunk followed by the separator yields
the chunk as the first field. -/
theorem splitOnChar_append_sep (c : Char) (xs ys : List Char) (h : c ∉ xs) :
    splitOnChar c (xs ++ c :: ys) = xs :: splitOnChar c ys := by
  induction xs with
  | nil => simp [splitOnChar]
  | cons x xs ih =>
    have hx : ¬ x = c := by
      intro hxc
      exact h (hxc ▸ List.mem_cons_self x xs)
    have h2 : c ∉ xs := fun hm => h (List.mem_cons_of_mem _ hm)
    simp [splitOnChar, hx, ih h2]

/-- RerenderContent always recomputes the viewport height from the stored
terminal height (main.go line 173). -/
theorem rr1_model_height (render : Int → String → String) (g : P1.Globals1)
    (m : P1.Model1) (nf nt : Bool) :
    (P1.RerenderContent render g m nf nt).model.viewport.height
      = m.cmdHeight - P1.headerHeight - P1.footerHeight := by
  simp [P1.RerenderContent, P1.useHighPerformanceRenderer]

/-- RerenderContent does not change the stored terminal height. -/
theorem rr1_model_cmdHeight (render : Int → String → String) (g : P1.Globals1)
    (m : P1.Model1) (nf nt : Bool) :
    (P1.RerenderContent render g m nf nt).model.cmdHeight = m.cmdHeight := by
  simp [P1.RerenderContent, P1.useHighPerformanceRenderer]

/-- RerenderContent does not change the fitted width. -/
theorem rr1_model_fitWidth (render : Int → String → String) (g : P1.Globals1)
    (m : P1.Model1) (nf nt : Bool) :
    (P1.RerenderContent render g m nf nt).model.fitWidth = m.fitWidth := by
  simp [P1.RerenderContent, P1.useHighPerformanceRenderer]

/-- A WindowSizeMsg step leaves the viewport height at the new terminal
height minus the header and footer heights, with no flooring. -/
theorem upd1_model_height (render : Int → String → String) (g : P1.Globals1)
    (m : P1.Model1) (w h : Int) :
    (P1.UpdateWindowSize render g m w h).model.viewport.height
      = h - P1.headerHeight - P1.footerHeight := by
  simp only [P1.UpdateWindowSize, P1.useHighPerformanceRenderer, if_true]
  split <;> split <;> simp [rr1_model_height, rr1_model_cmdHeight]

/-- C1: in dual column mode the source is meant to give the second row the
height max(lines(block3), lines(block4)); the code instead overwrites
projRender3 from projRender2 (main.go line 218) and so measures the SECOND
block twice. At trimmed renders p1 = "x", p2 = "y", p3 with two newlines,
p4 = "z", the code computes row-B height 0 while the intended value is 2,
and the stored third render is p2, not p3. -/
theorem C1_rowB_measures_second_block :
    (P1.dualBranch "x" "y" "a\nb\nc" "z").rowBHeight = 0 ∧
    max (countNl "a\nb\nc") (countNl "z") = 2 ∧
    (P1.dualBranch "x" "y" "a\nb\nc" "z").rowBHeight
      ≠ max (countNl "a\nb\nc") (countNl "z") ∧
    (P1.dualBranch "x" "y" "a\nb\nc" "z").proj3 = "y" := by decide

/-- C3 as stated is false: the code never floors the viewport height at 0.
At terminal height 5 the session-initialization viewport height is minus 3,
not max(0, 5 - 8) = 0, and a resize to height 5 gives minus 3 as well. -/
theorem C3_counterexample :
    (P1.teaHandler 80 5).viewport.height = -3 ∧
    ¬ 0 ≤ (P1.teaHandler 80 5).viewport.height ∧
    (P1.teaHandler 80 5).viewport.height
      ≠ max 0 (5 - P1.headerHeight - P1.footerHeight) ∧
    (P1.UpdateWindowSize rid g0 m0 80 5).model.viewport.height = -3 := by decide

/-- C3 amended: the viewport height is terminal height minus HEADER_HEIGHT
minus FOOTER_HEIGHT with NO flooring, at session initialization, inside
RerenderContent, and after every resize; it is negative whenever the
terminal is shorter than 8 rows. -/
theorem C3_amended (w h : Int) (render : Int → String → String) (g : P1.Globals1)
    (m : P1.Model1) (nf nt : Bool) :
    (P1.teaHandler w h).viewport.height = h - P1.headerHeight - P1.footerHeight ∧
    (P1.RerenderContent render g m nf nt).model.viewport.height
      = m.cmdHeight - P1.headerHeight - P1.footerHeight ∧
    (P1.UpdateWindowSize render g m w h).model.viewport.height
      = h - P1.headerHeight - P1.footerHeight ∧
    (h < P1.headerHeight + P1.footerHeight →
      (P1.UpdateWindowSize render g m w h).model.viewport.height < 0) := by
  refine ⟨rfl, rr1_model_height render g m nf nt, upd1_model_height render g m w h, ?_⟩
  intro hsmall
  rw [upd1_model_height render g m w h]
  simp only [P1.headerHeight, P1.footerHeight] at hsmall ⊢
  omega

/-- C3 amended witness at terminal height 5. -/
theorem C3_amended_witness :
    (P1.teaHandler 80 5).viewport.height = 5 - P1.headerHeight - P1.footerHeight ∧
    (P1.RerenderContent rid g0 m0 false false).model.viewport.height
      = m0.cmdHeight - P1.headerHeight - P1.footerHeight ∧
    (P1.UpdateWindowSize rid g0 m0 80 5).model.viewport.height
      = 5 - P1.headerHeight - P1.footerHeight ∧
    (P1.UpdateWindowSize rid g0 m0 80 5).model.viewport.height < 0 := by
  have h := C3_amended 80 5 rid g0 m0 false false
  exact ⟨h.1, h.2.1, h.2.2.1, h.2.2.2 (by decide)⟩

/-- C4 as stated is false: teaHandler (main.go line 145) computes only
min(w, 80) and never subtracts the 4-column margin. At terminal width 70 the
session-initialization fitted width is 70 while the claim requires 66. -/
theorem C4_counterexample :
    P1.teaFitWidth 70 = 70 ∧ P1.claimFitWidth 70 = 66 ∧
    P1.teaFitWidth 70 ≠ P1.claimFitWidth 70 := by decide

/-- C4 amended: the margin subtraction happens only on resize (Update,
lines 274-277), where the fitted width is exactly as the claim words it;
session initialization uses plain min(w, 80); in both places the fitted
width never exceeds the 80-column maximum. -/
theorem C4_amended (w : Int) :
    P1.updateFitWidth w = P1.claimFitWidth w ∧
    P1.teaFitWidth w = min w P1.maxWidth ∧
    P1.updateFitWidth w ≤ P1.maxWidth ∧
    P1.teaFitWidth w ≤ P1.maxWidth := by
  refine ⟨rfl, rfl, ?_, ?_⟩ <;>
    simp only [P1.updateFitWidth, P1.teaFitWidth, P1.maxWidth] <;>
    [skip; omega]
  split <;> omega

/-- C7: the column mode switches exactly at the 80-column maximum — a fitted
width below 80 gives single column, 80 (and above) gives dual; in particular
79 is single and 80 is dual. -/
theorem C7_column_threshold :
    (∀ f : Int, P1.columnMode f = P1.ColumnMode.single ↔ f < 80) ∧
    P1.columnMode 79 = P1.ColumnMode.single ∧
    P1.columnMode 80 = P1.ColumnMode.dual := by
  refine ⟨fun f => ?_, by decide, by decide⟩
  constructor
  · intro hs
    by_contra hf
    simp [P1.columnMode, hf] at hs
  · intro hf
    simp [P1.columnMode, hf]

/-- C10 as stated is false: at fitted width 20 (reachable, since a resize to
terminal width 20 stores min(20, 80) = 20 in the second program) the header
budget is 3, smaller than the 11-character styled path, so the truncation
branch runs with slice bound 3 - 4 = -1, which is out of range — the Go
slice expression panics rather than returning. -/
theorem C10_counterexample :
    P2.updateFitWidth 20 = 20 ∧
    P2.headerTruncate 20 (P2.headerPathText "/root") = none := by decide

/-- C10 amended: the ellipsis truncation is in-bounds only for large enough
fitted widths. With styling modelled as the identity (the 11-byte path at
the root location), the second program HeaderView stays in bounds exactly
when fitted width is at least 21; below that the slice upper bound
budget - 4 is negative and the access is out of range. -/
theorem C10_amended (fw : Int) (hfw : 21 ≤ fw) :
    (P2.headerTruncate fw (P2.headerPathText "/root")).isSome = true := by
  have hlen : ((P2.headerPathText "/root").data.length : Int) = 11 := by decide
  simp only [P2.headerTruncate, P2.altLinkWidth, P2.linkPadding, hlen]
  split
  · rename_i hgt
    split
    · simp
    · rename_i hbad
      exfalso
      apply hbad
      constructor <;> omega
  · simp

/-- C10 amended witness at fitted width 25. -/
theorem C10_amended_witness :
    (21 : Int) ≤ 25 ∧
    (P2.headerTruncate 25 (P2.headerPathText "/root")).isSome = true :=
  ⟨by decide, C10_amended 25 (by decide)⟩

/-- C2: a resize of a loaded session whose recomputed fitted width equals
the stored fitted width re-invokes glamour only on the uncached top and
bottom sections; none of the four cached project blocks is passed to a
Render call (no cache miss), while the viewport height is recomputed and the
scroll geometry (yPosition and a viewport sync command) is refreshed. -/
theorem C2_resize_same_width_no_cache_render (render : Int → String → String)
    (g : P1.Globals1) (m : P1.Model1) (w h : Int)
    (hl : m.loaded = true) (hw : P1.updateFitWidth w = m.fitWidth) :
    (P1.UpdateWindowSize render g m w h).renderCalls = [P1.top, P1.bot] ∧
    P1.prog1 ∉ (P1.UpdateWindowSize render g m w h).renderCalls ∧
    P1.prog2 ∉ (P1.UpdateWindowSize render g m w h).renderCalls ∧
    P1.prog3 ∉ (P1.UpdateWindowSize render g m w h).renderCalls ∧
    P1.prog4 ∉ (P1.UpdateWindowSize render g m w h).renderCalls ∧
    (P1.UpdateWindowSize render g m w h).model.viewport.height
      = h - P1.headerHeight - P1.footerHeight ∧
    (P1.UpdateWindowSize render g m w h).model.viewport.yPosition
      = P1.headerHeight + 1 ∧
    Mmyron.TeaCmd.sync (P1.UpdateWindowSize render g m w h).model.viewport
      ∈ (P1.UpdateWindowSize render g m w h).cmds := by
  have hcalls : (P1.UpdateWindowSize render g m w h).renderCalls = [P1.top, P1.bot] := by
    simp only [P1.UpdateWindowSize, P1.useHighPerformanceRenderer, if_true, hl, hw]
    simp [P1.RerenderContent, P1.useHighPerformanceRenderer]
  refine ⟨hcalls, ?_, ?_, ?_, ?_, upd1_model_height render g m w h, ?_, ?_⟩
  · rw [hcalls]; decide
  · rw [hcalls]; decide
  · rw [hcalls]; decide
  · rw [hcalls]; decide
  · simp [P1.UpdateWindowSize, P1.useHighPerformanceRenderer, hl, hw,
      P1.RerenderContent]
  · simp [P1.UpdateWindowSize, P1.useHighPerformanceRenderer, hl, hw,
      P1.RerenderContent]

/-- C2 witness: a loaded full-width session resized from fitted width 80 to
terminal width 85 (fitted width still 80). -/
theorem C2_witness :
    m0.loaded = true ∧ P1.updateFitWidth 85 = m0.fitWidth ∧
    ((P1.UpdateWindowSize rid g0 m0 85 40).renderCalls = [P1.top, P1.bot] ∧
     P1.prog1 ∉ (P1.UpdateWindowSize rid g0 m0 85 40).renderCalls ∧
     P1.prog2 ∉ (P1.UpdateWindowSize rid g0 m0 85 40).renderCalls ∧
     P1.prog3 ∉ (P1.UpdateWindowSize rid g0 m0 85 40).renderCalls ∧
     P1.prog4 ∉ (P1.UpdateWindowSize rid g0 m0 85 40).renderCalls ∧
     (P1.UpdateWindowSize rid g0 m0 85 40).model.viewport.height
       = 40 - P1.headerHeight - P1.footerHeight ∧
     (P1.UpdateWindowSize rid g0 m0 85 40).model.viewport.yPosition
       = P1.headerHeight + 1 ∧
     Mmyron.TeaCmd.sync (P1.UpdateWindowSize rid g0 m0 85 40).model.viewport
       ∈ (P1.UpdateWindowSize rid g0 m0 85 40).cmds) :=
  ⟨rfl, by decide, C2_resize_same_width_no_cache_render rid g0 m0 85 40 rfl (by decide)⟩

/-- C8: pressing p at the root transitions into the posts list location and
clears the viewport to a zero-size region (width 0, height 0, empty content,
scroll offset 0); with the high-performance renderer enabled (it is a true
constant) a viewport synchronization command is emitted in the same update
step. -/
theorem C8_list_entry_clears_viewport (render : Int → String → String)
    (fs : String → Option String) (m : P2.Model2) (hroot : m.currentPath = "/root") :
    (P2.UpdateKey render fs m "p").1.currentPath = "/posts" ∧
    (P2.UpdateKey render fs m "p").1.viewport.width = 0 ∧
    (P2.UpdateKey render fs m "p").1.viewport.height = 0 ∧
    (P2.UpdateKey render fs m "p").1.viewport.yOffset = 0 ∧
    (P2.UpdateKey render fs m "p").1.viewport.content = "" ∧
    Mmyron.TeaCmd.sync (P2.UpdateKey render fs m "p").1.viewport
      ∈ (P2.UpdateKey render fs m "p").2 := by
  simp only [P2.UpdateKey, P2.Rerender, P2.useHighPerformanceRenderer, hroot]
  simp

/-- C8 witness: a root session entering the posts list. -/
theorem C8_witness :
    m2.currentPath = "/root" ∧
    ((P2.UpdateKey rid fsEmpty m2 "p").1.currentPath = "/posts" ∧
     (P2.UpdateKey rid fsEmpty m2 "p").1.viewport.width = 0 ∧
     (P2.UpdateKey rid fsEmpty m2 "p").1.viewport.height = 0 ∧
     (P2.UpdateKey rid fsEmpty m2 "p").1.viewport.yOffset = 0 ∧
     (P2.UpdateKey rid fsEmpty m2 "p").1.viewport.content = "" ∧
     Mmyron.TeaCmd.sync (P2.UpdateKey rid fsEmpty m2 "p").1.viewport
       ∈ (P2.UpdateKey rid fsEmpty m2 "p").2) :=
  ⟨rfl, C8_list_entry_clears_viewport rid fsEmpty m2 rfl⟩

/-- C6 as stated is false: selecting the post at the missing path
/posts/ghost makes Rerender hit the os.ReadFile error branch (main.go lines
612-617), which returns tea.Quit — the session terminates with currentPath
left at the missing document, it does not transition back to Root and keep
running. -/
theorem C6_counterexample :
    (P2.UpdateKey rid fsEmpty m1 "enter").1.currentPath = "/posts/ghost" ∧
    ("/posts/ghost" : String) ≠ "/root" ∧
    (P2.UpdateKey rid fsEmpty m1 "enter").2
      = [Mmyron.TeaCmd.quit, Mmyron.TeaCmd.quit] := by decide

/-- C6 amended: selecting a document whose backing file is missing makes the
update return tea.Quit (twice, through the duplicated append), terminating
the session; currentPath stays at the selected document path rather than
returning to Root. -/
theorem C6_missing_post_quits (render : Int → String → String)
    (fs : String → Option String) (m : P2.Model2)
    (hc : m.currentPath = "/posts")
    (hp : (P2.selectedItem m.posts).path ≠ "/posts")
    (hfs : fs ("fs" ++ (P2.selectedItem m.posts).path ++ ".md") = none) :
    (P2.UpdateKey render fs m "enter").2
      = [Mmyron.TeaCmd.quit, Mmyron.TeaCmd.quit] ∧
    (P2.UpdateKey render fs m "enter").1.currentPath
      = (P2.selectedItem m.posts).path := by
  simp only [P2.UpdateKey, P2.Rerender, P2.useHighPerformanceRenderer, hc]
  simp [hp, hfs]

/-- C6 amended witness: the concrete ghost-post session. -/
theorem C6_witness :
    m1.currentPath = "/posts" ∧
    (P2.selectedItem m1.posts).path ≠ "/posts" ∧
    ((P2.UpdateKey rid fsEmpty m1 "enter").2
       = [Mmyron.TeaCmd.quit, Mmyron.TeaCmd.quit] ∧
     (P2.UpdateKey rid fsEmpty m1 "enter").1.currentPath
       = (P2.selectedItem m1.posts).path) :=
  ⟨rfl, by decide, C6_missing_post_quits rid fsEmpty m1 rfl (by decide) rfl⟩

/-- The frontmatter loop can only hit the out-of-range body slice when the
closing delimiter candidate sits on the very last line: if the last line of
the full array does not begin with three dashes, the scan never reaches
ScanOut.outOfRange. -/
theorem fmScanAux_no_out_of_range (all : List String)
    (hlast : goStartsWith (all.getLastD "") "---" = false) :
    ∀ (cur : List String) (i : Nat) (fm : List (String × String)),
      all.drop i = cur → FM.fmScanAux all i fm cur ≠ FM.ScanOut.outOfRange := by
  intro cur
  induction cur with
  | nil =>
    intro i fm hdrop
    simp [FM.fmScanAux]
  | cons line rest ih =>
    intro i fm hdrop
    have hdrop' : all.drop (i + 1) = rest := by
      rw [← List.tail_drop, hdrop]
      rfl
    simp only [FM.fmScanAux]
    split
    · exact ih (i + 1) fm hdrop'
    · split
      · split
        · simp
        · rename_i hsw hle
          exfalso
          have hlen : (all.drop i).length = rest.length + 1 := by
            rw [hdrop]; simp
          rw [List.length_drop] at hlen
          have hi : i < all.length := by omega
          have hrest : rest.length = 0 := by omega
          have hrest' : rest = [] := List.length_eq_zero.mp hrest
          subst hrest'
          have hall : all.take i ++ [line] = all := by
            rw [← hdrop]
            exact List.take_append_drop i all
          have hlast' : all.getLastD "" = line := by
            rw [← hall]
            exact List.getLastD_concat _ _ _
          rw [hlast', hsw] at hlast
          simp at hlast
      · split
        · exact ih (i + 1) _ hdrop'
        · exact ih (i + 1) fm hdrop'

/-- C9 as stated is false: with the closing delimiter on the LAST line the
body slice index i+2 exceeds the line count and Go panics (modelled as
none); with the closing delimiter on the second-to-last line the slice is
the empty suffix and the function returns. -/
theorem C9_counterexample :
    FM.SplitFrontmatterMarkdown "---\ntitle: a\n---" = none ∧
    FM.SplitFrontmatterMarkdown "---\ntitle: a\n---\n"
      = some ("", [("title", "a")]) := by decide

/-- C9 amended: SplitFrontmatterMarkdown returns without an out-of-range
access for every input whose final line does not begin with three dashes —
in particular for every text ending in a newline; only a closing delimiter
that is the newline-less final line drives the body slice index i+2 past
the bounds of the line array. -/
theorem C9_amended (content : String)
    (hlast : goStartsWith ((splitLines content).getLastD "") "---" = false) :
    (FM.SplitFrontmatterMarkdown content).isSome = true := by
  simp only [FM.SplitFrontmatterMarkdown]
  split
  · cases hscan : FM.fmScanAux (splitLines content) 0 [] (splitLines content) with
    | closed body fm => simp [hscan]
    | outOfRange =>
      exact absurd hscan
        (fmScanAux_no_out_of_range (splitLines content) hlast (splitLines content) 0 [] rfl)
    | noClose fm => simp [hscan]
  · simp

/-- C9 amended witness: a frontmatter file ending in a newline. -/
theorem C9_witness :
    goStartsWith ((splitLines "---\nk: v\n---\n").getLastD "") "---" = false ∧
    (FM.SplitFrontmatterMarkdown "---\nk: v\n---\n").isSome = true :=
  ⟨by decide, C9_amended "---\nk: v\n---\n" (by decide)⟩

/-- C5 as stated is false: strings.Split cuts the line at EVERY colon and
the source keeps only parts[1], so a value containing a colon is truncated
at its second colon rather than preserved in full. For the metadata line
"link: https://x" the stored value is "https", while a split on the first
colon with the whole remainder trimmed would give "https://x". -/
theorem C5_counterexample :
    FM.SplitFrontmatterMarkdown "---\nlink: https://x\n---\n\nbody"
      = some ("body", [("link", "https")]) ∧
    FM.claimSplitKvValue "link: https://x" = "https://x" ∧
    ("https" : String) ≠ "https://x" := by decide

/-- C5 amended: for a metadata line of shape key, colon, first segment,
colon, second segment (key and segments free of colons and newlines, the
line not beginning with three dashes), the stored pair is the trimmed key
and the trimmed FIRST segment only — everything after the value segment
second colon is discarded, so a colon-bearing value is truncated, not
preserved. -/
theorem C5_amended (k v w : String)
    (hk1 : ':' ∉ k.data) (hv1 : ':' ∉ v.data) (hw1 : ':' ∉ w.data)
    (hv2 : '\n' ∉ v.data)
    (hk2 : '\n' ∉ k.data) (hw2 : '\n' ∉ w.data)
    (hd : goStartsWith (k ++ ":" ++ v ++ ":" ++ w) "---" = false) :
    FM.SplitFrontmatterMarkdown
        ("---\n" ++ (k ++ ":" ++ v ++ ":" ++ w) ++ "\n---\n\nbody")
      = some ("body", [(goTrimSpace k, goTrimSpace v)]) := by
  have hcd : (":" : String).data = [':'] := rfl
  have hldata : (k ++ ":" ++ v ++ ":" ++ w).data
      = k.data ++ ':' :: (v.data ++ ':' :: w.data) := by
    simp [string_data_append, hcd, List.append_assoc]
  have hne : ('\n' : Char) ≠ ':' := by decide
  have hnl : '\n' ∉ (k ++ ":" ++ v ++ ":" ++ w).data := by
    rw [hldata]
    simp [hk2, hv2, hw2, hne]
  have hdata : ("---\n" ++ (k ++ ":" ++ v ++ ":" ++ w) ++ "\n---\n\nbody").data
      = ['-', '-', '-'] ++ '\n' :: ((k ++ ":" ++ v ++ ":" ++ w).data
          ++ '\n' :: (['-', '-', '-'] ++ '\n' :: ('\n' :: ['b', 'o', 'd', 'y']))) := rfl
  have hsplit : splitLines ("---\n" ++ (k ++ ":" ++ v ++ ":" ++ w) ++ "\n---\n\nbody")
      = ["---", k ++ ":" ++ v ++ ":" ++ w, "---", "", "body"] := by
    unfold splitLines
    rw [hdata, splitOnChar_append_sep '\n' _ _ (by decide),
      splitOnChar_append_sep '\n' _ _ hnl,
      splitOnChar_append_sep '\n' _ _ (by decide),
      splitOnChar_sep_head,
      splitOnChar_no_sep '\n' _ (by decide)]
    rfl
  have hparts : splitOnChar ':' (k.data ++ ':' :: (v.data ++ ':' :: w.data))
      = [k.data, v.data, w.data] := by
    rw [splitOnChar_append_sep ':' _ _ hk1,
      splitOnChar_append_sep ':' _ _ hv1, splitOnChar_no_sep ':' _ hw1]
  have hparts2 : splitOnChar ':' (k ++ ":" ++ v ++ ":" ++ w).data
      = [k.data, v.data, w.data] := by
    rw [hldata, hparts]
  have hcol : ((k ++ ":" ++ v ++ ":" ++ w).data.contains ':') = true := by
    rw [hldata]
    simp [List.contains]
  have hdash : goStartsWith "---" "---" = true := by decide
  simp only [FM.SplitFrontmatterMarkdown, hsplit]
  simp [FM.fmScanAux, hdash, hd, hcol, hparts, hparts2, goTrimSpace, joinWith]

/-- C5 amended witness: the metadata line "link: https://x". -/
theorem C5_witness :
    goStartsWith ("link" ++ ":" ++ " https" ++ ":" ++ "//x") "---" = false ∧
    FM.SplitFrontmatterMarkdown
        ("---\n" ++ ("link" ++ ":" ++ " https" ++ ":" ++ "//x") ++ "\n---\n\nbody")
      = some ("body", [(goTrimSpace "link", goTrimSpace " https")]) :=
  ⟨by decide, C5_amended "link" " https" "//x" (by decide) (by decide) (by decide)
    (by decide) (by decide) (by decide) (by decide)⟩

end Mmyron
